import Mathlib

/-!
Shallow embedding of the telegram_rasudm access-control bot.

The repository gates membership in a Telegram group behind a phone-number
whitelist.  The persistent store (src/database.py over SQLModel) holds three
tables: User (id, optional unique foreign key phone_id into the whitelist,
is_admin, is_active), PhoneWhiteList (phone as primary key, with the bound
user reachable through the unique User.phone_id foreign key) and
TelegramGroup (id, target flag).  We embed the store as explicit lists and
each DatabaseManager method as a pure function from the store to a result
paired with the successor store; a method that raises is embedded with an
explicit error value.  Handlers from src/routers and helpers from
src/service are embedded as functions returning an effect record.
-/

deriving instance DecidableEq for Except

namespace Rasudm

/-- Error values for the embedded code.  DatabaseError and its subclass
ItemNotFoundException come from src/database.py; integrityError embeds
sqlalchemy.exc.IntegrityError (a uniqueness violation at commit, not a
DatabaseError subclass); excelParsing embeds ExcelParsingError from
src/service/excel.py.  restrictedAccess and invalidInput are modelled from
the spec: the repository imports RestrictedAccessError and
InvalidInputError from an exceptions module that is absent from the
snapshot; the spec's error taxonomy describes them as distinct
domain-specific exception classes.  attributeError, typeError and
valueError embed the corresponding built-in Python exceptions that the
interpreter raises (missing attribute, wrong call arity, failed int()
conversion). -/
inductive PyError where
  | databaseError (msg : String)
  | itemNotFound (msg : String)
  | integrityError
  | excelParsing (msg : String)
  | restrictedAccess (msg : String)
  | invalidInput (msg : String)
  | attributeError (msg : String)
  | typeError (msg : String)
  | valueError (msg : String)
  | indexError (msg : String)
deriving Repr, DecidableEq

/-- User row from src/models.py: Telegram id as primary key, an optional
unique foreign key into the phone whitelist, and the admin/active flags
(both default False).  The two timestamp columns play no role in any
claim and are omitted. -/
structure User where
  id : Int
  phone_id : Option Int := none
  is_admin : Bool := false
  is_active : Bool := false
deriving Repr, DecidableEq

/-- TelegramGroup row from src/models.py: chat id and the target flag
(default False). -/
structure TelegramGroup where
  id : Int
  target : Bool := false
deriving Repr, DecidableEq

/-- The relational store: the User table, the PhoneWhiteList table (each
row is just its primary-key phone number) and the TelegramGroup table. -/
structure Store where
  users : List User := []
  phones : List Int := []
  groups : List TelegramGroup := []
deriving Repr, DecidableEq

/-- Read model PhoneWhiteListRead from src/models.py: the phone together
with the optionally bound user (the user row whose phone_id foreign key
equals this phone). -/
structure PhoneWhiteListRead where
  phone : Int
  user : Option User
deriving Repr, DecidableEq

namespace DatabaseManager

/-- DatabaseManager.get_user: look the user up by primary key; None when
absent. -/
def get_user (s : Store) (user_id : Int) : Option User :=
  s.users.find? (fun u => u.id == user_id)

/-- DatabaseManager.add_user: insert a fresh User(id=user_id).  When the
primary key already exists the commit raises IntegrityError, which the
method catches, logs and then returns the unsaved fresh record, leaving
the table unchanged; so the embedding is total. -/
def add_user (s : Store) (user_id : Int) : User × Store :=
  let user : User := { id := user_id }
  match get_user s user_id with
  | some _ => (user, s)
  | none => (user, { s with users := s.users ++ [user] })

/-- The user bound to a phone: the user row whose unique phone_id foreign
key equals the phone (how the PhoneWhiteList.user relationship resolves). -/
def phone_user (s : Store) (phone_num : Int) : Option User :=
  s.users.find? (fun u => u.phone_id == some phone_num)

/-- DatabaseManager.get_phone: look the phone up in the whitelist,
eagerly loading the bound user; None when the phone is absent. -/
def get_phone (s : Store) (phone_num : Int) : Option PhoneWhiteListRead :=
  if s.phones.contains phone_num then
    some { phone := phone_num, user := phone_user s phone_num }
  else
    none

/-- Set the phone_id column of the row with the given user id. -/
def set_user_phone (users : List User) (user_id phone_num : Int) : List User :=
  users.map (fun u => if u.id == user_id then { u with phone_id := some phone_num } else u)

/-- DatabaseManager.bind_phone_to_user: raises ItemNotFoundException when
the phone is not whitelisted; auto-creates the user through add_user when
absent (add_user commits in its own session, so that insert persists even
if the later commit fails); then assigns the phone to the user.  The
unique constraint on User.phone_id makes the commit raise IntegrityError
when a different user already holds the phone, rolling back the
assignment. -/
def bind_phone_to_user (s : Store) (user_id phone_num : Int) :
    Except PyError User × Store :=
  if s.phones.contains phone_num then
    let s1 := if (get_user s user_id).isSome then s else (add_user s user_id).2
    if s1.users.any (fun u => !(u.id == user_id) && u.phone_id == some phone_num) then
      (.error .integrityError, s1)
    else
      let s2 := { s1 with users := set_user_phone s1.users user_id phone_num }
      match get_user s2 user_id with
      | some u => (.ok u, s2)
      | none => (.error (.databaseError "unreachable: user was just created"), s2)
  else
    (.error (.itemNotFound "There is no phone {phone_num} in database"), s)

/-- DatabaseManager.get_target_channel: all groups whose target flag is
set (the invariant intends at most one, but the query returns them all). -/
def get_target_channel (s : Store) : List TelegramGroup :=
  s.groups.filter (fun g => g.target)

/-- DatabaseManager.make_channel_target: clears the target flag on every
currently targeted group and sets it on the requested channel; when the
channel id is unknown it raises ItemNotFoundException before committing,
so the cleared flags are rolled back and the store is unchanged. -/
def make_channel_target (s : Store) (channel_id : Int) :
    Except PyError TelegramGroup × Store :=
  match s.groups.find? (fun g => g.id == channel_id) with
  | none => (.error (.itemNotFound "Cant find group with id {channel_id} in database!"), s)
  | some _ =>
      let groups := s.groups.map (fun g => { g with target := g.id == channel_id })
      (.ok { id := channel_id, target := true }, { s with groups := groups })

/-- DatabaseManager.make_admin: raises the base DatabaseError when the
user is absent; otherwise sets is_admin. -/
def make_admin (s : Store) (user_id : Int) : Except PyError User × Store :=
  match get_user s user_id with
  | none => (.error (.databaseError "Cant make admin, because there is no user with such ID."), s)
  | some u =>
      let u2 := { u with is_admin := true }
      (.ok u2, { s with users := s.users.map (fun v => if v.id == user_id then u2 else v) })

/-- DatabaseManager.activate_user: raises the base DatabaseError (not the
ItemNotFoundException subclass) when the user is absent; otherwise sets
is_active. -/
def activate_user (s : Store) (user_id : Int) : Except PyError User × Store :=
  match get_user s user_id with
  | none => (.error (.databaseError "Cant activate user, because there is no user with such ID."), s)
  | some u =>
      let u2 := { u with is_active := true }
      (.ok u2, { s with users := s.users.map (fun v => if v.id == user_id then u2 else v) })

/-- DatabaseManager.is_active: raises the base DatabaseError when the
user is absent; otherwise returns the is_active flag. -/
def is_active (s : Store) (user_id : Int) : Except PyError Bool :=
  match get_user s user_id with
  | none => .error (.databaseError "Cant check user is active, because there is no user with such ID.")
  | some u => .ok u.is_active

/-- DatabaseManager.is_admin: returns the is_admin flag, or False for an
unknown user, never raising. -/
def is_admin (s : Store) (user_id : Int) : Bool :=
  match get_user s user_id with
  | some u => u.is_admin
  | none => false

/-- DatabaseManager.add_phone: insert the phone as a new primary key; a
duplicate raises IntegrityError at commit (not caught in this method). -/
def add_phone (s : Store) (phone_num : Int) : Except PyError Int × Store :=
  if s.phones.contains phone_num then
    (.error .integrityError, s)
  else
    (.ok phone_num, { s with phones := s.phones ++ [phone_num] })

end DatabaseManager

namespace Excel

/-- Spreadsheet cell value as seen by parse_phone_number: openpyxl hands
the Phone column cells over as strings or integers. -/
inductive Cell where
  | str (t : List Char)
  | int (n : Nat)
deriving Repr, DecidableEq

/-- Longest run of decimal digits at the front of the text (what the
greedy regex fragment matching zero or more digits consumes). -/
def leading_digits : List Char → List Char
  | [] => []
  | c :: rest => if c.isDigit then c :: leading_digits rest else []

/-- Matching the anchored regex of parse_phone_number against a string:
an optional single country digit 7 or 8, then a literal 9, then greedy
digits; the returned value is capture group 1 (the part from the 9 on).
re.match anchors at the start of the string, so a cell beginning with
any other character (a plus sign, a space) never matches. -/
def parse_phone_number_str : List Char → Option (List Char)
  | [] => none
  | c :: rest =>
    if c == '9' then
      some ('9' :: leading_digits rest)
    else if c == '7' || c == '8' then
      match rest with
      | '9' :: rest2 => some ('9' :: leading_digits rest2)
      | _ => none
    else
      none

/-- service.excel.parse_phone_number: an int cell is first converted to
its decimal string; then the anchored regex is applied and group 1
returned, or None when the cell does not match. -/
def parse_phone_number (cell : Cell) : Option (List Char) :=
  match cell with
  | .int n => parse_phone_number_str (Nat.toDigits 10 n)
  | .str t => parse_phone_number_str t

/-- Header label of the phone column in the imported spreadsheet. -/
def phone_header : List Char := "Телефон".data

/-- service.excel.get_phones_whitelist_from_xls: find the first column
whose header cell reads Телефон and keep the parseable cells below it;
raise ExcelParsingError when no such column exists. -/
def get_phones_whitelist_from_xls (sheet : List (List Cell)) :
    Except PyError (List (List Char)) :=
  match sheet.find? (fun col => col.head? == some (.str phone_header)) with
  | some col => .ok (col.tail.filterMap parse_phone_number)
  | none => .error (.excelParsing "Cannot find phone column in the provided Excel file.")

/-- Python slice s[-10:]: the last ten characters (the whole string when
it is shorter). -/
def last_ten (l : List Char) : List Char := l.drop (l.length - 10)

/-- Numeric value of a string of decimal digits (what int() returns on
an all-digit string). -/
def digits_to_nat (l : List Char) : Nat :=
  l.foldl (fun a c => a * 10 + (c.toNat - '0'.toNat)) 0

/-- The integer a matched phone string is stored as: int applied to its
last ten characters. -/
def imported_value (m : List Char) : Int :=
  Int.ofNat (digits_to_nat (last_ten m))

/-- Loop body of service.excel.add_phones_from_file over the parsed
numbers: each number is inserted via add_phone as the int of its last
ten characters.  The accumulation phones_added += row then raises
TypeError (a PhoneWhiteList row is not iterable); the per-row handler
catches every exception and records it, so the loop continues and the
result list stays empty while the inserts persist. -/
def add_phones_loop (s : Store) : List (List Char) → Store × List PyError
  | [] => (s, [])
  | m :: rest =>
    let r := DatabaseManager.add_phone s (imported_value m)
    match r.1 with
    | .ok _ =>
        let k := add_phones_loop r.2 rest
        (k.1, .typeError "argument of type PhoneWhiteList is not iterable" :: k.2)
    | .error e =>
        let k := add_phones_loop r.2 rest
        (k.1, e :: k.2)

/-- service.excel.add_phones_from_file: parse the sheet (ExcelParsingError
propagates), then run the insertion loop; returns the final store and the
recorded per-row errors. -/
def add_phones_from_file (s : Store) (sheet : List (List Cell)) :
    Except PyError (Store × List PyError) :=
  match get_phones_whitelist_from_xls sheet with
  | .error e => .error e
  | .ok nums => .ok (add_phones_loop s nums)

end Excel

namespace ServiceUser

/-- Argument to the admin user operations: a numeric id or the raw text
the admin typed. -/
inductive UserIdArg where
  | int (n : Int)
  | str (t : List Char)
deriving Repr, DecidableEq

/-- Whether every character is a decimal digit. -/
def all_digits (l : List Char) : Bool := l.all Char.isDigit

/-- Python int() on a string: optional sign then decimal digits; None
embeds the ValueError raised on any other text. -/
def py_int : List Char → Option Int
  | [] => none
  | '+' :: ds => if ds.length > 0 && all_digits ds then some (Int.ofNat (Excel.digits_to_nat ds)) else none
  | '-' :: ds => if ds.length > 0 && all_digits ds then some (-(Int.ofNat (Excel.digits_to_nat ds))) else none
  | ds => if all_digits ds then some (Int.ofNat (Excel.digits_to_nat ds)) else none

/-- The isinstance(user_id, str) branch of the service operations: a str
argument goes through int(), whose ValueError is converted into
InvalidInputError; an int argument passes through. -/
def to_int_arg : UserIdArg → Option Int
  | .int n => some n
  | .str t => py_int t

/-- service.user.delete_user: convert the argument (InvalidInputError on
non-numeric text), then call db_manager.delete_user.  DatabaseManager
defines no delete_user method, so on the numeric path the attribute
lookup raises AttributeError and no row is touched. -/
def delete_user (arg : UserIdArg) (s : Store) : Except PyError Unit × Store :=
  match to_int_arg arg with
  | none => (.error (.invalidInput "User id should be integer."), s)
  | some _ => (.error (.attributeError "DatabaseManager object has no attribute delete_user"), s)

/-- service.user.make_admin: convert the argument (InvalidInputError on
non-numeric text), then delegate to DatabaseManager.make_admin. -/
def make_admin (arg : UserIdArg) (s : Store) : Except PyError User × Store :=
  match to_int_arg arg with
  | none => (.error (.invalidInput "User id should be integer."), s)
  | some uid => DatabaseManager.make_admin s uid

end ServiceUser

/-- Registration session state kept by the finite-state machine in
src/states.py, restricted to the states the registration router actually
enters; cleared is the absence of a state. -/
inductive SessionState where
  | cleared
  | wait_agreement
  | waiting_phone_changed_user
deriving Repr, DecidableEq

/-- Per-user FSM context: the current state and the phone stashed by
state.set_data during conflict resolution. -/
structure Session where
  state : SessionState := .cleared
  data_phone : Option Int := none
deriving Repr, DecidableEq

/-- Messages the registration handlers send, each tagged by its source
text. -/
inductive Reply where
  /-- Source text: Такой номер не зарегистрирован ... -/
  | not_whitelisted
  /-- Source text: По такому номеру уже зарегистрирован другой пользователь ... -/
  | already_registered_confirm
  /-- Source text: Вы успешно зарегистрированы! Пройдите по этой ссылке ...
  (the invite link is created for the given group) -/
  | registration_success (group : Int)
  /-- Source text: Хорошо. Вы можете продолжать пользоваться группой с ранее
  зарегистрированного аккаунта. -/
  | continue_previous
  /-- Source text: Вы должны ответить либо Да, либо Нет. -/
  | answer_yes_or_no
deriving Repr, DecidableEq

/-- Inbound message as the registration handlers read it: sender id,
the shared contact when present, the text when present. -/
structure Message where
  from_user_id : Int
  contact : Option (List Char) := none
  text : Option (List Char) := none
deriving Repr, DecidableEq

/-- Everything a handler invocation did: the store and session it left
behind, the replies it sent, the store-side registration effects, and
the Python exception that escaped it, if any. -/
structure HandlerEffects where
  store : Store
  session : Session
  replies : List Reply := []
  bound_phone : Option (Int × Int) := none
  activated : Option Int := none
  invite_link_group : Option Int := none
  py_error : Option PyError := none
deriving Repr, DecidableEq

namespace ServiceRegistration

/-- service.registration.is_phone_in_whitelist: the phone lookup is not
None. -/
def is_phone_in_whitelist (s : Store) (phone : Int) : Bool :=
  (DatabaseManager.get_phone s phone).isSome

/-- service.registration.is_another_user_registered: raises
ItemNotFoundException when the phone is absent, else whether a user is
bound to it. -/
def is_another_user_registered (s : Store) (phone : Int) : Except PyError Bool :=
  match DatabaseManager.get_phone s phone with
  | none => .error (.itemNotFound "Cant find phone")
  | some pr => .ok pr.user.isSome

/-- service.registration.answer_registration_succes, as defined (four
required parameters): create an invite link for the first row of
get_target_channel (IndexError when there is no target group), send the
success message with the link, clear the state. -/
def answer_registration_succes (s : Store) (sess : Session) : HandlerEffects :=
  match (DatabaseManager.get_target_channel s).head? with
  | none =>
      { store := s, session := sess,
        py_error := some (.indexError "list index out of range") }
  | some g =>
      { store := s, session := { state := .cleared, data_phone := none },
        replies := [.registration_success g.id],
        invite_link_group := some g.id }

end ServiceRegistration

namespace ServiceTelegroup

/-- Truthiness of the value of the expression db_manager.is_active(user_id)
at the guard of approve_user_invite: the call is not awaited there, so the
expression evaluates to a coroutine object, and an object's truthiness is
True no matter what awaiting the coroutine would have returned. -/
def truthy_of_unawaited_coroutine (pending : Except PyError Bool) : Bool :=
  let _ := pending
  true

/-- service.telegroup.approve_user_invite: raise RestrictedAccessError
when the activity guard fails, else approve the join request via the chat
API (embedded as returning true).  The guard tests
`not db_manager.is_active(user_id)` with the missing await described
above, so it never fails. -/
def approve_user_invite (s : Store) (user_id : Int) (group_id : Int) :
    Except PyError Bool :=
  let _ := group_id
  if !truthy_of_unawaited_coroutine (DatabaseManager.is_active s user_id) then
    .error (.restrictedAccess "RESTRICTED ACCESS! User try to join group via link of another user.")
  else
    .ok true

end ServiceTelegroup

namespace Routers

/-- Inbound chat-join request: the chat it targets, the requester, and
the private chat available for a rejection message, when any. -/
structure ChatJoinRequest where
  chat_id : Int
  from_user_id : Int
  user_chat_id : Option Int := none
deriving Repr, DecidableEq

/-- Outcome of the join gatekeeper handler. -/
inductive JoinOutcome where
  | ignored
  | approved
  | rejection_message_sent (chat : Int)
  | crashed (e : PyError)
deriving Repr, DecidableEq

/-- Attribute access target_group.id in approve_chat_join_request, where
target_group is the Sequence returned by get_target_channel: a sequence
has no id attribute, so the access raises AttributeError whatever the
store holds. -/
def sequence_id_attribute (groups : List TelegramGroup) : Except PyError Int :=
  let _ := groups
  .error (.attributeError "Sequence object has no attribute id")

/-- routers.registration.approve_chat_join_request: read the id of the
target-channel query result, ignore the request when the chat differs,
otherwise call approve_user_invite, converting RestrictedAccessError into
a private rejection message when a private chat exists; any other
exception escapes the handler. -/
def approve_chat_join_request (s : Store) (update : ChatJoinRequest) : JoinOutcome :=
  match sequence_id_attribute (DatabaseManager.get_target_channel s) with
  | .error e => .crashed e
  | .ok tid =>
    if update.chat_id != tid then
      .ignored
    else
      match ServiceTelegroup.approve_user_invite s update.from_user_id update.chat_id with
      | .ok _ => .approved
      | .error (.restrictedAccess m) =>
          match update.user_chat_id with
          | some c =>
              let _ := m
              .rejection_message_sent c
          | none => .ignored
      | .error e => .crashed e

/-- routers.registration.register_user (state wait_agreement, contact
shared): phone is int of the last ten characters of the contact number;
an unknown phone gets the not-whitelisted reply and a cleared state; a
phone bound to some user gets the confirm prompt, the phone stored in
the session data and the conflict state; otherwise the handler runs
`await answer_registration_succes(message, state)` - a call that omits
the required db_manager and bot arguments and therefore raises TypeError
before any store access, reply, bind or activation happens. -/
def register_user (s : Store) (sess : Session) (msg : Message) : HandlerEffects :=
  match msg.contact with
  | none =>
      { store := s, session := sess,
        py_error := some (.attributeError "NoneType object has no attribute phone_number") }
  | some number =>
    match ServiceUser.py_int (Excel.last_ten number) with
    | none =>
        { store := s, session := sess,
          py_error := some (.valueError "invalid literal for int with base 10") }
    | some phone =>
      if !ServiceRegistration.is_phone_in_whitelist s phone then
        { store := s, session := { state := .cleared, data_phone := none },
          replies := [.not_whitelisted] }
      else
        match ServiceRegistration.is_another_user_registered s phone with
        | .error e => { store := s, session := sess, py_error := some e }
        | .ok true =>
            { store := s,
              session := { state := .waiting_phone_changed_user, data_phone := some phone },
              replies := [.already_registered_confirm] }
        | .ok false =>
            { store := s, session := sess,
              py_error := some (.typeError "answer_registration_succes missing 2 required positional arguments: db_manager and bot") }

/-- Comparison performed by a string literal pattern inside
`match message:` in renew_user_phone: the match subject is the Message
object itself, not its text, and an aiogram Message never equals a str,
so the literal patterns can never fire. -/
def message_eq_str (m : Message) (t : List Char) : Bool :=
  let _ := m
  let _ := t
  false

/-- routers.registration.renew_user_phone (state
waiting_phone_changed_user): match the Message object against the
literals Да and Нет; since the object never equals a string, every
message falls to the wildcard reply.  The final state.clear() is not
awaited - the coroutine is created and dropped - so the session is left
unchanged in every branch. -/
def renew_user_phone (s : Store) (sess : Session) (msg : Message) : HandlerEffects :=
  if message_eq_str msg "Да".data then
    { store := s, session := sess,
      py_error := some (.typeError "answer_registration_succes missing 2 required positional arguments: db_manager and bot") }
  else if message_eq_str msg "Нет".data then
    { store := s, session := sess, replies := [.continue_previous] }
  else
    { store := s, session := sess, replies := [.answer_yes_or_no] }

end Routers

/-- Store reached by a sequence of make_channel_target calls, keeping the
store a failed call leaves behind. -/
def apply_set_target (s : Store) (l : List Int) : Store :=
  l.foldl (fun st c => (DatabaseManager.make_channel_target st c).2) s

/-- Whether a result is the ItemNotFoundException subclass (as opposed to
the base DatabaseError or any other exception). -/
def is_item_not_found {α : Type} (r : Except PyError α) : Bool :=
  match r with
  | .error (.itemNotFound _) => true
  | _ => false

/-- Store for the C1 scenario: one whitelisted unbound phone, one target
group, no user yet. -/
def store_c1 : Store :=
  { phones := [9111234567], groups := [{ id := -100, target := true }] }

/-- Effects of the register_user handler on the C1 scenario: user 42 in
the wait_agreement state shares the contact +79111234567. -/
def effects_c1 : HandlerEffects :=
  Routers.register_user store_c1 { state := .wait_agreement }
    { from_user_id := 42, contact := some "+79111234567".data }

/-- Store for the C2 scenario: group -100 is the target and user 8 exists
and is inactive. -/
def store_c2 : Store :=
  { users := [{ id := 8 }], groups := [{ id := -100, target := true }] }

/-- Join request of the C2 scenario: inactive user 8 asks to join the
target group, with a private chat available for a rejection message. -/
def request_c2 : Routers.ChatJoinRequest :=
  { chat_id := -100, from_user_id := 8, user_chat_id := some 8 }

/-- Spreadsheet of the C5 round-trip: the column labeled Телефон holding
the four cells of the claim. -/
def sheet_c5 : List (List Excel.Cell) :=
  [[.str "Телефон".data, .str "+7 911 123-45-67".data, .int 89111234567,
    .str "9111234567".data, .str "abc".data]]

/-- Store for the C8 scenario: user 7 is active and bound to the
whitelisted phone, user 8 exists and is inactive. -/
def store_c8 : Store :=
  { users := [{ id := 7, phone_id := some 9111234567, is_active := true }, { id := 8 }],
    phones := [9111234567] }

/-- Session of the C8 scenario: user 8 is in the conflict-resolution
state with the contested phone stashed. -/
def session_c8 : Session :=
  { state := .waiting_phone_changed_user, data_phone := some 9111234567 }

/-- Effects of the renew_user_phone handler when user 8 answers Нет in
the C8 scenario. -/
def effects_c8 : HandlerEffects :=
  Routers.renew_user_phone store_c8 session_c8
    { from_user_id := 8, text := some "Нет".data }

/-- Store for the C9 scenario: user 123 exists. -/
def store_c9 : Store := { users := [{ id := 123 }] }

/-- Store for the C7 counterexample: user 1 exists and is active. -/
def store_c7 : Store := { users := [{ id := 1, is_active := true }] }

/-- Store for the C3 counterexample: a corrupted state with two targeted
groups. -/
def store_c3 : Store :=
  { groups := [{ id := 1, target := true }, { id := 2, target := true }] }

/-- Store for the C3 witness: group 1 targeted, group 2 not. -/
def store_c3w : Store :=
  { groups := [{ id := 1, target := true }, { id := 2 }] }

/-- Store for the C4 witness: one whitelisted phone, no user. -/
def store_c4w : Store := { phones := [9111234567] }

end Rasudm

namespace Rasudm

/-- C1: the claim says that in the AwaitingAgreement state a contact with
a whitelisted, unbound phone gets the phone bound to the user, the user
activated, an invite link sent and the state cleared.  On exactly that
input the code instead raises TypeError: the success branch calls
answer_registration_succes(message, state), omitting its two further
required arguments, and no bind, activation, invite link, reply or state
change happens. -/
theorem C1_success_path_raises_type_error_and_binds_nothing :
    ServiceRegistration.is_phone_in_whitelist store_c1 9111234567 = true ∧
    ServiceRegistration.is_another_user_registered store_c1 9111234567 = .ok false ∧
    effects_c1.py_error = some (.typeError "answer_registration_succes missing 2 required positional arguments: db_manager and bot") ∧
    effects_c1.bound_phone = none ∧
    effects_c1.activated = none ∧
    effects_c1.invite_link_group = none ∧
    effects_c1.replies = [] ∧
    effects_c1.session.state = .wait_agreement ∧
    effects_c1.store = store_c1 := by
  decide

/-- C2: the claim says the gatekeeper approves a join request iff the
chat is the target group and the requester is active, converting the
restricted-access error into a rejection message.  In the code the
handler crashes on every join request - target_group is the sequence
returned by get_target_channel and has no id attribute - and the
activity guard inside approve_user_invite can never fire because
is_active is not awaited, so even a request by the inactive user 8 for
the target group would be approved rather than rejected. -/
theorem C2_join_gatekeeper_crashes_and_activity_guard_never_fires :
    Routers.approve_chat_join_request store_c2 request_c2 =
      .crashed (.attributeError "Sequence object has no attribute id") ∧
    DatabaseManager.is_active store_c2 8 = .ok false ∧
    ServiceTelegroup.approve_user_invite store_c2 8 (-100) = .ok true ∧
    ∀ (s : Store) (u g : Int), ServiceTelegroup.approve_user_invite s u g = .ok true := by
  refine ⟨by decide, by decide, by decide, ?_⟩
  intro s u g
  rfl

/-- C5 counterexample: importing the spreadsheet of the claim yields two
normalized entries, not three - the formatted cell +7 911 123-45-67 is
discarded because the regex is anchored at the start of the cell and
does not skip the plus sign, spaces or hyphens. -/
theorem C5_formatted_cell_is_discarded_import_yields_two :
    Excel.get_phones_whitelist_from_xls sheet_c5 =
      .ok ["9111234567".data, "9111234567".data] ∧
    (Excel.get_phones_whitelist_from_xls sheet_c5).toOption.map List.length = some 2 ∧
    Excel.parse_phone_number (.str "+7 911 123-45-67".data) = none := by
  decide

/-- C5 amended: importing the spreadsheet with the column Телефон holding
+7 911 123-45-67, 89111234567, 9111234567 and abc yields exactly two
normalized entries - the integer cell and the bare string both normalize
to 9111234567 - while abc and the formatted +7 911 123-45-67 are
discarded; inserting them stores the single whitelisted phone 9111234567
(the duplicate insert fails on the primary key and is only logged). -/
theorem C5_import_yields_two_normalized_entries :
    Excel.parse_phone_number (.int 89111234567) = some "9111234567".data ∧
    Excel.parse_phone_number (.str "9111234567".data) = some "9111234567".data ∧
    Excel.parse_phone_number (.str "abc".data) = none ∧
    Excel.parse_phone_number (.str "+7 911 123-45-67".data) = none ∧
    Excel.get_phones_whitelist_from_xls sheet_c5 =
      .ok ["9111234567".data, "9111234567".data] ∧
    (Excel.add_phones_from_file {} sheet_c5).toOption.map (fun r => r.1.phones) =
      some [(9111234567 : Int)] := by
  decide

/-- C8: the claim says an answer of no in the conflict-resolution state
gets the continue-with-previous-account reply and a cleared state.  The
code matches the Message object itself - never equal to a string - so
the answer Нет falls to the wildcard branch: the reply is the
answer-yes-or-no prompt, and the state survives because state.clear() is
never awaited.  The frame part holds: user 8 stays inactive and user 7
keeps the phone binding. -/
theorem C8_no_answer_gets_wildcard_reply_and_state_survives :
    effects_c8.replies = [.answer_yes_or_no] ∧
    effects_c8.replies ≠ [.continue_previous] ∧
    effects_c8.session = session_c8 ∧
    effects_c8.session.state ≠ .cleared ∧
    effects_c8.store = store_c8 ∧
    DatabaseManager.is_active effects_c8.store 8 = .ok false ∧
    DatabaseManager.phone_user effects_c8.store 9111234567 =
      some { id := 7, phone_id := some 9111234567, is_active := true } := by
  decide

/-- C9: the claim says promoteAdmin and deleteUser accept a numeric id or
numeric string and proceed against the store, failing with InvalidInput
on non-numeric text.  make_admin behaves exactly so, and both raise
InvalidInputError on non-numeric text; but on the numeric path
delete_user raises AttributeError, because DatabaseManager defines no
delete_user method, so the deletion never reaches the store. -/
theorem C9_admin_id_conversion_and_missing_delete :
    (ServiceUser.delete_user (.str "123".data) store_c9).1 =
      .error (.attributeError "DatabaseManager object has no attribute delete_user") ∧
    (ServiceUser.delete_user (.str "123".data) store_c9).2 = store_c9 ∧
    (ServiceUser.delete_user (.str "abc".data) store_c9).1 =
      .error (.invalidInput "User id should be integer.") ∧
    (ServiceUser.make_admin (.str "123".data) store_c9).1 =
      .ok { id := 123, is_admin := true } ∧
    DatabaseManager.is_admin (ServiceUser.make_admin (.str "123".data) store_c9).2 123 = true ∧
    (ServiceUser.make_admin (.int 123) store_c9).1 = .ok { id := 123, is_admin := true } ∧
    (ServiceUser.make_admin (.str "abc".data) store_c9).1 =
      .error (.invalidInput "User id should be integer.") := by
  decide

/-- C6 counterexample: for the unknown user 5 in the empty store,
is_admin indeed returns false, but activate_user raises the base
DatabaseError, not the ItemNotFoundException subclass the claim names,
so the claim as stated is false at this input. -/
theorem C6_activate_unknown_raises_base_database_error :
    DatabaseManager.get_user {} 5 = none ∧
    DatabaseManager.is_admin {} 5 = false ∧
    (DatabaseManager.activate_user ({} : Store) 5).1 =
      .error (.databaseError "Cant activate user, because there is no user with such ID.") ∧
    is_item_not_found (DatabaseManager.activate_user ({} : Store) 5).1 = false := by
  decide

/-- C6 amended: for every user id absent from the store, is_admin
returns false without raising, while activate_user raises an error for
the missing user - the base DatabaseError, not the ItemNotFound
subclass - and leaves the store unchanged. -/
theorem C6_is_admin_false_activate_raises (s : Store) (u : Int)
    (h : DatabaseManager.get_user s u = none) :
    DatabaseManager.is_admin s u = false ∧
    (DatabaseManager.activate_user s u).1 =
      .error (.databaseError "Cant activate user, because there is no user with such ID.") ∧
    (DatabaseManager.activate_user s u).2 = s := by
  refine ⟨?_, ?_, ?_⟩ <;>
    simp [DatabaseManager.is_admin, DatabaseManager.activate_user, h]

/-- C6 witness: the amended theorem applied to the unknown user 5 in the
empty store. -/
theorem C6_is_admin_false_activate_raises_witness :
    DatabaseManager.is_admin ({} : Store) 5 = false ∧
    (DatabaseManager.activate_user ({} : Store) 5).1 =
      .error (.databaseError "Cant activate user, because there is no user with such ID.") ∧
    (DatabaseManager.activate_user ({} : Store) 5).2 = ({} : Store) :=
  C6_is_admin_false_activate_raises {} 5 (by decide)

/-- C7 counterexample: with user 1 stored as active, add_user 1 does not
raise and leaves the store unchanged, but the record it returns is the
fresh default one - inactive - and differs from the stored record, so
the claim that it returns the existing record is false at this input. -/
theorem C7_add_user_returns_fresh_record_not_stored :
    DatabaseManager.get_user store_c7 1 =
      some { id := 1, phone_id := none, is_admin := false, is_active := true } ∧
    (DatabaseManager.add_user store_c7 1).2 = store_c7 ∧
    (DatabaseManager.add_user store_c7 1).1 ≠
      { id := 1, phone_id := none, is_admin := false, is_active := true } := by
  decide

/-- C7 amended: when a user with the id already exists, add_user does
not raise (it is total here because the IntegrityError is caught) and
leaves the store unchanged, but it returns the freshly constructed
default record for the id - the unsaved new row - rather than the
stored record. -/
theorem C7_add_user_on_existing_returns_fresh_default (s : Store) (uid : Int) (w : User)
    (h : DatabaseManager.get_user s uid = some w) :
    DatabaseManager.add_user s uid = ({ id := uid }, s) := by
  simp [DatabaseManager.add_user, h]

/-- C7 witness: the amended theorem applied to the store holding the
active user 1. -/
theorem C7_add_user_on_existing_returns_fresh_default_witness :
    DatabaseManager.add_user store_c7 1 = ({ id := 1 }, store_c7) :=
  C7_add_user_on_existing_returns_fresh_default store_c7 1
    { id := 1, is_active := true } (by decide)

/-- Counting targets after retargeting every group towards cid counts the
groups whose id is cid. -/
theorem countP_target_map_set (l : List TelegramGroup) (cid : Int) :
    (l.map (fun g => { g with target := g.id == cid })).countP (fun g => g.target) =
      l.countP (fun g => g.id == cid) := by
  induction l with
  | nil => rfl
  | cons a t ih => simp [List.countP_cons, ih]

/-- Under primary-key uniqueness, at most one group carries any given
id. -/
theorem countP_beq_id_le_one (l : List TelegramGroup) (cid : Int)
    (hn : (l.map TelegramGroup.id).Nodup) :
    l.countP (fun g => g.id == cid) ≤ 1 := by
  induction l with
  | nil => simp
  | cons a t ih =>
    rw [List.map_cons, List.nodup_cons] at hn
    rw [List.countP_cons]
    by_cases h : a.id = cid
    · have ht : t.countP (fun g => g.id == cid) = 0 := by
        rw [List.countP_eq_zero]
        intro g hg hq
        rw [beq_iff_eq] at hq
        have : a.id ∈ t.map TelegramGroup.id := by
          rw [h, ← hq]
          exact List.mem_map.mpr ⟨g, hg, rfl⟩
        exact absurd this hn.1
      simp [ht, h]
    · have ha : (a.id == cid) = false := by simp [h]
      rw [ha]
      simpa using ih hn.2

/-- Under primary-key uniqueness, filtering on a present id yields that
single row. -/
theorem filter_beq_id_singleton (l : List TelegramGroup) (cid : Int) (g0 : TelegramGroup)
    (hn : (l.map TelegramGroup.id).Nodup) (hm : g0 ∈ l) (hid : g0.id = cid) :
    l.filter (fun g => g.id == cid) = [g0] := by
  induction l with
  | nil => cases hm
  | cons a t ih =>
    rw [List.map_cons, List.nodup_cons] at hn
    rcases List.mem_cons.mp hm with rfl | hmt
    · have ht : t.filter (fun g => g.id == cid) = [] := by
        rw [List.filter_eq_nil_iff]
        intro g hg hq
        rw [beq_iff_eq] at hq
        have : g0.id ∈ t.map TelegramGroup.id := by
          rw [hid, ← hq]
          exact List.mem_map.mpr ⟨g, hg, rfl⟩
        exact absurd this hn.1
      rw [List.filter_cons]
      simp [hid, ht]
    · have ha : (a.id == cid) = false := by
        rw [beq_eq_false_iff_ne]
        intro he
        have : a.id ∈ t.map TelegramGroup.id := by
          rw [he, ← hid]
          exact List.mem_map.mpr ⟨g0, hmt, rfl⟩
        exact absurd this hn.1
      rw [List.filter_cons, ha]
      exact ih hn.2 hmt

/-- Filtering the retargeted table for targets is the retargeting of the
rows whose id matches. -/
theorem filter_target_map_set (l : List TelegramGroup) (cid : Int) :
    (l.map (fun g => { g with target := g.id == cid })).filter (fun g => g.target) =
      (l.filter (fun g => g.id == cid)).map (fun g => { g with target := g.id == cid }) := by
  induction l with
  | nil => rfl
  | cons a t ih =>
    rw [List.map_cons, List.filter_cons, List.filter_cons]
    by_cases h : a.id = cid
    · simp [h, ih]
    · simp [h, ih]

/-- One make_channel_target call preserves primary-key uniqueness of the
group table and the at-most-one-target property. -/
theorem make_channel_target_invariant_step (s : Store) (c : Int)
    (hn : (s.groups.map TelegramGroup.id).Nodup)
    (hle : (DatabaseManager.get_target_channel s).length ≤ 1) :
    (((DatabaseManager.make_channel_target s c).2.groups.map TelegramGroup.id).Nodup) ∧
    (DatabaseManager.get_target_channel (DatabaseManager.make_channel_target s c).2).length ≤ 1 := by
  rcases hf : s.groups.find? (fun g => g.id == c) with _ | g0
  · simp only [DatabaseManager.make_channel_target, hf]
    exact ⟨hn, hle⟩
  · simp only [DatabaseManager.make_channel_target, hf]
    constructor
    · rw [List.map_map]
      exact hn
    · simp only [DatabaseManager.get_target_channel]
      rw [← List.countP_eq_length_filter, countP_target_map_set]
      exact countP_beq_id_le_one s.groups c hn

/-- Any further sequence of make_channel_target calls preserves the
at-most-one-target property. -/
theorem apply_set_target_le_one (l : List Int) : ∀ (s : Store),
    (s.groups.map TelegramGroup.id).Nodup →
    (DatabaseManager.get_target_channel s).length ≤ 1 →
    (DatabaseManager.get_target_channel (apply_set_target s l)).length ≤ 1 := by
  induction l with
  | nil => intro s _ h; exact h
  | cons c t ih =>
    intro s hn hle
    have hstep := make_channel_target_invariant_step s c hn hle
    exact ih _ hstep.1 hstep.2

/-- C3 counterexample: from a store state holding two targeted groups, a
sequence consisting of one failed setTargetGroup call (unknown id 5)
leaves both targets in place, so the claim that any sequence from any
store state ends with at most one target is false at this input. -/
theorem C3_failed_call_preserves_two_targets :
    (DatabaseManager.get_target_channel (apply_set_target store_c3 [5])).length = 2 := by
  decide

/-- C3 amended: under primary-key uniqueness of the group table, every
successful make_channel_target call clears the flag on every previously
targeted group and leaves its argument as the unique targeted group, and
after any further sequence of calls at most one group stays targeted;
the original claim fails only for sequences without a successful call
starting from a corrupted multi-target state, which a failed call leaves
unchanged. -/
theorem C3_unique_target_after_successful_call (s : Store) (cid : Int)
    (g : TelegramGroup) (s2 : Store)
    (hn : (s.groups.map TelegramGroup.id).Nodup)
    (h : DatabaseManager.make_channel_target s cid = (.ok g, s2)) :
    DatabaseManager.get_target_channel s2 = [{ id := cid, target := true }] ∧
    ∀ l, (DatabaseManager.get_target_channel (apply_set_target s2 l)).length ≤ 1 := by
  rcases hf : s.groups.find? (fun g => g.id == cid) with _ | g0
  · simp [DatabaseManager.make_channel_target, hf] at h
  · simp only [DatabaseManager.make_channel_target, hf, Prod.mk.injEq] at h
    obtain ⟨-, h2⟩ := h
    subst h2
    have hg0m := List.mem_of_find?_eq_some hf
    have hg0p : g0.id = cid := by
      have := List.find?_some hf
      rwa [beq_iff_eq] at this
    have huniq : DatabaseManager.get_target_channel
        { s with groups := s.groups.map (fun g => { g with target := g.id == cid }) } =
        [{ id := cid, target := true }] := by
      simp only [DatabaseManager.get_target_channel]
      rw [filter_target_map_set, filter_beq_id_singleton s.groups cid g0 hn hg0m hg0p]
      cases g0
      simp_all
    refine ⟨huniq, fun l => apply_set_target_le_one l _ ?_ ?_⟩
    · rw [List.map_map]
      exact hn
    · rw [huniq]
      simp

/-- C3 witness: the amended theorem applied to a store where group 1 is
targeted and group 2 is selected as the new target, then a further call
sequence with one failing and one succeeding call. -/
theorem C3_unique_target_after_successful_call_witness :
    DatabaseManager.get_target_channel
        ({ groups := [{ id := 1, target := false }, { id := 2, target := true }] } : Store) =
      [{ id := 2, target := true }] ∧
    (DatabaseManager.get_target_channel
        (apply_set_target
          ({ groups := [{ id := 1, target := false }, { id := 2, target := true }] } : Store)
          [9, 1])).length ≤ 1 := by
  have h := C3_unique_target_after_successful_call store_c3w 2 { id := 2, target := true }
      ({ groups := [{ id := 1, target := false }, { id := 2, target := true }] } : Store)
      (by decide) (by decide)
  exact ⟨h.1, h.2 [9, 1]⟩

/-- Unfolding of the phone assignment over a cons cell. -/
theorem set_user_phone_cons (a : User) (t : List User) (u p : Int) :
    DatabaseManager.set_user_phone (a :: t) u p =
      (if a.id == u then { a with phone_id := some p } else a) ::
        DatabaseManager.set_user_phone t u p := rfl

/-- Looking a user up by id after the phone assignment finds the same
row with the phone set. -/
theorem find?_id_set_user_phone (l : List User) (u p : Int) :
    (DatabaseManager.set_user_phone l u p).find? (fun v => v.id == u) =
      (l.find? (fun v => v.id == u)).map (fun v => { v with phone_id := some p }) := by
  induction l with
  | nil => rfl
  | cons a t ih =>
    rw [set_user_phone_cons]
    by_cases h : a.id = u
    · have hc : (a.id == u) = true := by simp [h]
      rw [if_pos hc]
      simp only [List.find?_cons, hc]
      rfl
    · have hc : (a.id == u) = false := by simp [h]
      rw [if_neg (by simp [hc])]
      simp only [List.find?_cons, hc]
      exact ih

/-- When only the designated user may hold the phone, looking the phone
up after the assignment finds exactly the updated designated row. -/
theorem find?_phone_set_user_phone (l : List User) (u p : Int)
    (hb : ∀ v ∈ l, v.phone_id = some p → v.id = u) :
    (DatabaseManager.set_user_phone l u p).find? (fun v => v.phone_id == some p) =
      (l.find? (fun v => v.id == u)).map (fun v => { v with phone_id := some p }) := by
  induction l with
  | nil => rfl
  | cons a t ih =>
    have ih2 := ih (fun v hv => hb v (List.mem_cons_of_mem a hv))
    rw [set_user_phone_cons]
    by_cases h : a.id = u
    · have hc : (a.id == u) = true := by simp [h]
      have hc2 : (({ a with phone_id := some p } : User).phone_id == some p) = true := by simp
      rw [if_pos hc]
      simp only [List.find?_cons, hc2, hc]
      rfl
    · have hc : (a.id == u) = false := by simp [h]
      have hap : (a.phone_id == some p) = false := by
        rw [beq_eq_false_iff_ne]
        intro he
        exact h (hb a (List.mem_cons_self a t) he)
      rw [if_neg (by simp [hc])]
      simp only [List.find?_cons, hc, hap]
      exact ih2

/-- When only the designated user may hold the phone, counting holders
after the assignment counts the rows with the designated id. -/
theorem countP_phone_set_user_phone (l : List User) (u p : Int)
    (hb : ∀ v ∈ l, v.phone_id = some p → v.id = u) :
    (DatabaseManager.set_user_phone l u p).countP (fun v => v.phone_id == some p) =
      l.countP (fun v => v.id == u) := by
  induction l with
  | nil => rfl
  | cons a t ih =>
    have ih2 := ih (fun v hv => hb v (List.mem_cons_of_mem a hv))
    rw [set_user_phone_cons, List.countP_cons, List.countP_cons]
    by_cases h : a.id = u
    · have hc : (a.id == u) = true := by simp [h]
      rw [if_pos hc]
      simp [hc, ih2]
    · have hc : (a.id == u) = false := by simp [h]
      have hne2 : a.phone_id ≠ some p := by
        intro he
        exact h (hb a (List.mem_cons_self a t) he)
      have hap : (a.phone_id == some p) = false := by
        rw [beq_eq_false_iff_ne]
        exact hne2
      simp [hc, hap, hne2, ih2]

/-- Under primary-key uniqueness, a present user id is counted exactly
once. -/
theorem countP_user_id_eq_one (l : List User) (u : Int) (w : User)
    (hn : (l.map User.id).Nodup) (hm : w ∈ l) (hid : w.id = u) :
    l.countP (fun v => v.id == u) = 1 := by
  induction l with
  | nil => cases hm
  | cons a t ih =>
    rw [List.map_cons, List.nodup_cons] at hn
    rcases List.mem_cons.mp hm with rfl | hmt
    · have ht : t.countP (fun v => v.id == u) = 0 := by
        rw [List.countP_eq_zero]
        intro g hg hq
        rw [beq_iff_eq] at hq
        have : w.id ∈ t.map User.id := by
          rw [hid, ← hq]
          exact List.mem_map.mpr ⟨g, hg, rfl⟩
        exact absurd this hn.1
      simp [List.countP_cons, ht, hid]
    · have ha : (a.id == u) = false := by
        rw [beq_eq_false_iff_ne]
        intro he
        have : a.id ∈ t.map User.id := by
          rw [he, ← hid]
          exact List.mem_map.mpr ⟨w, hmt, rfl⟩
        exact absurd this hn.1
      simp [List.countP_cons, ha, ih hn.2 hmt]

/-- Searching an appended list starts over in the second part when the
first part has no match. -/
theorem find?_append_of_none {α : Type} (l₁ l₂ : List α) (p : α → Bool)
    (h : l₁.find? p = none) : (l₁ ++ l₂).find? p = l₂.find? p := by
  induction l₁ with
  | nil => rfl
  | cons a t ih =>
    cases hpa : p a with
    | true =>
      rw [List.find?_cons_of_pos t hpa] at h
      cases h
    | false =>
      rw [List.find?_cons_of_neg t (by simp [hpa])] at h
      rw [List.cons_append, List.find?_cons_of_neg _ (by simp [hpa])]
      exact ih h

/-- No user may take a phone held only by the designated user without
tripping the uniqueness guard. -/
theorem any_other_holder_false (l : List User) (u p : Int)
    (hb : ∀ v ∈ l, v.phone_id = some p → v.id = u) :
    l.any (fun v => !(v.id == u) && v.phone_id == some p) = false := by
  rw [List.any_eq_false]
  intro v hv
  by_cases hq : v.phone_id = some p
  · have := hb v hv hq
    simp [this]
  · have : (v.phone_id == some p) = false := by
      rw [beq_eq_false_iff_ne]
      exact hq
    simp [this]

/-- Facts about the store a successful bind leaves behind: the designated
user carries the phone, the phone lookup surfaces that user, exactly one
user holds the phone, and a conflicting second bind by a different user
id trips the uniqueness guard while keeping a single holder. -/
theorem bind_post_core (s2 : Store) (l1 : List User) (p u u2 : Int) (w : User)
    (hps : s2.phones.contains p = true)
    (hus : s2.users = DatabaseManager.set_user_phone l1 u p)
    (hf1 : l1.find? (fun v => v.id == u) = some w)
    (hb1 : ∀ v ∈ l1, v.phone_id = some p → v.id = u)
    (hn1 : (l1.map User.id).Nodup)
    (hne : u2 ≠ u) :
    DatabaseManager.get_user s2 u = some { w with phone_id := some p } ∧
    DatabaseManager.get_phone s2 p =
      some { phone := p, user := some { w with phone_id := some p } } ∧
    s2.users.countP (fun v => v.phone_id == some p) = 1 ∧
    (DatabaseManager.bind_phone_to_user s2 u2 p).1 = .error .integrityError ∧
    (DatabaseManager.bind_phone_to_user s2 u2 p).2.users.countP
      (fun v => v.phone_id == some p) = 1 := by
  have hwid : w.id = u := by
    have := List.find?_some hf1
    rwa [beq_iff_eq] at this
  have hpu : s2.users.find? (fun v => v.phone_id == some p) =
      some { w with phone_id := some p } := by
    rw [hus, find?_phone_set_user_phone l1 u p hb1, hf1]
    rfl
  have hgu : DatabaseManager.get_user s2 u = some { w with phone_id := some p } := by
    show s2.users.find? (fun v => v.id == u) = _
    rw [hus, find?_id_set_user_phone, hf1]
    rfl
  have hpm : p ∈ s2.phones := by simpa using hps
  have hgp : DatabaseManager.get_phone s2 p =
      some { phone := p, user := some { w with phone_id := some p } } := by
    simp [DatabaseManager.get_phone, DatabaseManager.phone_user, hps, hpm, hpu]
  have hcnt : s2.users.countP (fun v => v.phone_id == some p) = 1 := by
    rw [hus, countP_phone_set_user_phone l1 u p hb1]
    exact countP_user_id_eq_one l1 u w hn1 (List.mem_of_find?_eq_some hf1) hwid
  have hwmem : ({ w with phone_id := some p } : User) ∈ s2.users :=
    List.mem_of_find?_eq_some hpu
  have hidf : (w.id == u2) = false := by
    rw [beq_eq_false_iff_ne, hwid]
    exact fun he => hne he.symm
  have hpredw : (!((({ w with phone_id := some p } : User).id) == u2) &&
      ((({ w with phone_id := some p } : User).phone_id) == some p)) = true := by
    show (!(w.id == u2) && (some p == some p)) = true
    simp [hidf]
  rcases hgu2 : DatabaseManager.get_user s2 u2 with _ | w2
  · have hadd : (DatabaseManager.add_user s2 u2).2 =
        { s2 with users := s2.users ++ [({ id := u2 } : User)] } := by
      simp [DatabaseManager.add_user, hgu2]
    have hany : (s2.users ++ [({ id := u2 } : User)]).any
        (fun v => !(v.id == u2) && v.phone_id == some p) = true :=
      List.any_eq_true.mpr
        ⟨({ w with phone_id := some p } : User), List.mem_append_left _ hwmem, hpredw⟩
    have hbind2 : DatabaseManager.bind_phone_to_user s2 u2 p =
        (.error .integrityError, { s2 with users := s2.users ++ [({ id := u2 } : User)] }) := by
      simp [DatabaseManager.bind_phone_to_user, hps, hpm, hgu2, hadd, hany]
    refine ⟨hgu, hgp, hcnt, ?_, ?_⟩
    · rw [hbind2]
    · rw [hbind2]
      show (s2.users ++ [({ id := u2 } : User)]).countP (fun v => v.phone_id == some p) = 1
      rw [List.countP_append]
      simp [hcnt]
  · have hany : s2.users.any (fun v => !(v.id == u2) && v.phone_id == some p) = true :=
      List.any_eq_true.mpr ⟨({ w with phone_id := some p } : User), hwmem, hpredw⟩
    have hbind2 : DatabaseManager.bind_phone_to_user s2 u2 p =
        (.error .integrityError, s2) := by
      simp [DatabaseManager.bind_phone_to_user, hps, hpm, hgu2, hany]
    refine ⟨hgu, hgp, hcnt, ?_, ?_⟩
    · rw [hbind2]
    · rw [hbind2]
      exact hcnt

/-- C4: for a whitelisted phone p held by no user other than u, binding
p to u succeeds - auto-creating the user when absent - and the returned
user carries id u and phone p; the following get_phone surfaces exactly
that bound user; exactly one user holds p afterwards; a second bind by a
different user id u2 trips the uniqueness constraint and still leaves
exactly one holder; and binding any phone absent from the whitelist
raises ItemNotFoundException without touching the store. -/
theorem C4_bind_then_get_phone_roundtrip (s : Store) (p u u2 : Int)
    (hn : (s.users.map User.id).Nodup)
    (hp : s.phones.contains p = true)
    (hb : ∀ v ∈ s.users, v.phone_id = some p → v.id = u)
    (hne : u2 ≠ u) :
    ((DatabaseManager.bind_phone_to_user s u p).1.toOption.map User.id = some u) ∧
    ((DatabaseManager.bind_phone_to_user s u p).1.toOption.map User.phone_id =
      some (some p)) ∧
    (DatabaseManager.get_phone (DatabaseManager.bind_phone_to_user s u p).2 p =
      some { phone := p, user := (DatabaseManager.bind_phone_to_user s u p).1.toOption }) ∧
    ((DatabaseManager.get_user (DatabaseManager.bind_phone_to_user s u p).2 u).isSome = true) ∧
    ((DatabaseManager.bind_phone_to_user s u p).2.users.countP
      (fun v => v.phone_id == some p) = 1) ∧
    ((DatabaseManager.bind_phone_to_user
        (DatabaseManager.bind_phone_to_user s u p).2 u2 p).1 = .error .integrityError) ∧
    ((DatabaseManager.bind_phone_to_user
        (DatabaseManager.bind_phone_to_user s u p).2 u2 p).2.users.countP
      (fun v => v.phone_id == some p) = 1) ∧
    (∀ q, s.phones.contains q = false →
      DatabaseManager.bind_phone_to_user s u q =
        (.error (.itemNotFound "There is no phone {phone_num} in database"), s)) := by
  have hpm : p ∈ s.phones := by simpa using hp
  have hnotfound : ∀ q, s.phones.contains q = false →
      DatabaseManager.bind_phone_to_user s u q =
        (.error (.itemNotFound "There is no phone {phone_num} in database"), s) := by
    intro q hq
    have hqm : q ∉ s.phones := by simpa using hq
    simp [DatabaseManager.bind_phone_to_user, hq, hqm]
  rcases hget : DatabaseManager.get_user s u with _ | w0
  · -- the user is auto-created
    have hfind : s.users.find? (fun v => v.id == u) = none := hget
    have hf1 : (s.users ++ [({ id := u } : User)]).find? (fun v => v.id == u) =
        some { id := u } := by
      rw [find?_append_of_none s.users _ _ hfind]
      simp [List.find?_cons]
    have hb1 : ∀ v ∈ s.users ++ [({ id := u } : User)], v.phone_id = some p → v.id = u := by
      intro v hv
      rcases List.mem_append.mp hv with h | h
      · exact hb v h
      · rw [List.mem_singleton] at h
        subst h
        intro hq
        cases hq
    have hn1 : ((s.users ++ [({ id := u } : User)]).map User.id).Nodup := by
      rw [List.map_append, List.nodup_append]
      refine ⟨hn, by simp, ?_⟩
      intro x hx hx2
      simp only [List.map_cons, List.map_nil, List.mem_singleton] at hx2
      subst hx2
      obtain ⟨v, hv, hvid⟩ := List.mem_map.mp hx
      exact absurd (by simp [hvid]) (List.find?_eq_none.mp hfind v hv)
    have hadd1 : (DatabaseManager.add_user s u).2 =
        { s with users := s.users ++ [({ id := u } : User)] } := by
      simp [DatabaseManager.add_user, hget]
    have hany1 : (s.users ++ [({ id := u } : User)]).any
        (fun v => !(v.id == u) && v.phone_id == some p) = false :=
      any_other_holder_false _ u p hb1
    have hgu2 : DatabaseManager.get_user
        { s with users := DatabaseManager.set_user_phone (s.users ++ [({ id := u } : User)]) u p } u =
        some ({ id := u, phone_id := some p } : User) := by
      show (DatabaseManager.set_user_phone (s.users ++ [({ id := u } : User)]) u p).find?
        (fun v => v.id == u) = _
      rw [find?_id_set_user_phone, hf1]
      rfl
    have hbind : DatabaseManager.bind_phone_to_user s u p =
        (.ok ({ id := u, phone_id := some p } : User),
         { s with users := DatabaseManager.set_user_phone (s.users ++ [({ id := u } : User)]) u p }) := by
      simp [DatabaseManager.bind_phone_to_user, hp, hpm, hget, hadd1, hany1, hgu2]
    have hcore := bind_post_core
      { s with users := DatabaseManager.set_user_phone (s.users ++ [({ id := u } : User)]) u p }
      (s.users ++ [({ id := u } : User)]) p u u2 ({ id := u } : User)
      hp rfl hf1 hb1 hn1 hne
    rw [hbind]
    refine ⟨rfl, rfl, ?_, ?_, ?_, ?_, ?_, hnotfound⟩
    · exact hcore.2.1
    · rw [hcore.1]
      rfl
    · exact hcore.2.2.1
    · exact hcore.2.2.2.1
    · exact hcore.2.2.2.2
  · -- the user already exists
    have hfind : s.users.find? (fun v => v.id == u) = some w0 := hget
    have hany1 : s.users.any (fun v => !(v.id == u) && v.phone_id == some p) = false :=
      any_other_holder_false s.users u p hb
    have hgu2 : DatabaseManager.get_user
        { s with users := DatabaseManager.set_user_phone s.users u p } u =
        some ({ w0 with phone_id := some p } : User) := by
      show (DatabaseManager.set_user_phone s.users u p).find? (fun v => v.id == u) = _
      rw [find?_id_set_user_phone, hfind]
      rfl
    have hbind : DatabaseManager.bind_phone_to_user s u p =
        (.ok ({ w0 with phone_id := some p } : User),
         { s with users := DatabaseManager.set_user_phone s.users u p }) := by
      simp [DatabaseManager.bind_phone_to_user, hp, hpm, hget, hany1, hgu2]
    have hw0id : w0.id = u := by
      have := List.find?_some hfind
      rwa [beq_iff_eq] at this
    have hcore := bind_post_core
      { s with users := DatabaseManager.set_user_phone s.users u p }
      s.users p u u2 w0 hp rfl hfind hb hn hne
    rw [hbind]
    refine ⟨by show some w0.id = some u; rw [hw0id], rfl, ?_, ?_, ?_, ?_, ?_, hnotfound⟩
    · exact hcore.2.1
    · rw [hcore.1]
      rfl
    · exact hcore.2.2.1
    · exact hcore.2.2.2.1
    · exact hcore.2.2.2.2

/-- C4 witness: the roundtrip theorem applied to the store holding only
the whitelisted phone 9111234567, binding it to the fresh user 42 and
then attempting user 77. -/
theorem C4_bind_then_get_phone_roundtrip_witness :
    ((DatabaseManager.bind_phone_to_user store_c4w 42 9111234567).1.toOption.map User.id =
      some 42) ∧
    (DatabaseManager.get_phone (DatabaseManager.bind_phone_to_user store_c4w 42 9111234567).2
        9111234567 =
      some { phone := 9111234567,
             user := (DatabaseManager.bind_phone_to_user store_c4w 42 9111234567).1.toOption }) ∧
    ((DatabaseManager.bind_phone_to_user
        (DatabaseManager.bind_phone_to_user store_c4w 42 9111234567).2 77 9111234567).1 =
      .error .integrityError) ∧
    (DatabaseManager.bind_phone_to_user store_c4w 42 123 =
      (.error (.itemNotFound "There is no phone {phone_num} in database"), store_c4w)) := by
  have h := C4_bind_then_get_phone_roundtrip store_c4w 9111234567 42 77
    (by decide) (by decide) (by decide) (by decide)
  exact ⟨h.1, h.2.2.1, h.2.2.2.2.2.1, h.2.2.2.2.2.2.2 123 (by decide)⟩

/-- Inserting a phone keeps every phone already stored. -/
theorem add_phone_phones_mono (s : Store) (x q : Int) (h : q ∈ s.phones) :
    q ∈ (DatabaseManager.add_phone s x).2.phones := by
  by_cases hc : x ∈ s.phones
  · have he : (DatabaseManager.add_phone s x).2 = s := by
      simp [DatabaseManager.add_phone, hc]
    rw [he]
    exact h
  · have he : (DatabaseManager.add_phone s x).2.phones = s.phones ++ [x] := by
      simp [DatabaseManager.add_phone, hc]
    rw [he]
    exact List.mem_append_left _ h

/-- The store the import loop produces does not depend on which branch
the per-row exception handling takes. -/
theorem add_phones_loop_cons (s : Store) (m : List Char) (t : List (List Char)) :
    (Excel.add_phones_loop s (m :: t)).1 =
      (Excel.add_phones_loop (DatabaseManager.add_phone s (Excel.imported_value m)).2 t).1 := by
  cases hr : (DatabaseManager.add_phone s (Excel.imported_value m)).1 with
  | ok v => simp [Excel.add_phones_loop, hr]
  | error e => simp [Excel.add_phones_loop, hr]

/-- The import loop keeps every phone already stored. -/
theorem add_phones_loop_mono (nums : List (List Char)) : ∀ (s : Store) (q : Int),
    q ∈ s.phones → q ∈ (Excel.add_phones_loop s nums).1.phones := by
  induction nums with
  | nil => intro s q h; exact h
  | cons a t ih =>
    intro s q h
    rw [add_phones_loop_cons]
    exact ih _ q (add_phone_phones_mono s _ q h)

/-- Every parsed number ends up stored as the int of its last ten
characters. -/
theorem add_phones_loop_inserted (nums : List (List Char)) : ∀ (s : Store), ∀ m ∈ nums,
    Excel.imported_value m ∈ (Excel.add_phones_loop s nums).1.phones := by
  induction nums with
  | nil => intro s m hm; cases hm
  | cons a t ih =>
    intro s m hm
    rw [add_phones_loop_cons]
    rcases List.mem_cons.mp hm with rfl | hmt
    · apply add_phones_loop_mono
      by_cases hc : Excel.imported_value m ∈ s.phones
      · have he : (DatabaseManager.add_phone s (Excel.imported_value m)).2 = s := by
          simp [DatabaseManager.add_phone, hc]
        rw [he]
        exact hc
      · have he : (DatabaseManager.add_phone s (Excel.imported_value m)).2.phones =
            s.phones ++ [Excel.imported_value m] := by
          simp [DatabaseManager.add_phone, hc]
        rw [he]
        exact List.mem_append_right _ (List.mem_singleton.mpr rfl)
    · exact ih _ m hmt

/-- Every phone the import loop stores was either stored before or is
the int of the last ten characters of some parsed number. -/
theorem add_phones_loop_src (nums : List (List Char)) : ∀ (s : Store) (q : Int),
    q ∈ (Excel.add_phones_loop s nums).1.phones →
    q ∈ s.phones ∨ ∃ m ∈ nums, q = Excel.imported_value m := by
  induction nums with
  | nil => intro s q h; exact Or.inl h
  | cons a t ih =>
    intro s q h
    rw [add_phones_loop_cons] at h
    rcases ih _ q h with h2 | h2
    · by_cases hc : Excel.imported_value a ∈ s.phones
      · have he : (DatabaseManager.add_phone s (Excel.imported_value a)).2 = s := by
          simp [DatabaseManager.add_phone, hc]
        rw [he] at h2
        exact Or.inl h2
      · have he : (DatabaseManager.add_phone s (Excel.imported_value a)).2.phones =
            s.phones ++ [Excel.imported_value a] := by
          simp [DatabaseManager.add_phone, hc]
        rw [he] at h2
        rcases List.mem_append.mp h2 with h4 | h4
        · exact Or.inl h4
        · right
          exact ⟨a, List.mem_cons_self a t, by simpa using h4⟩
    · right
      obtain ⟨m, hm, he⟩ := h2
      exact ⟨m, List.mem_cons_of_mem a hm, he⟩

/-- C10: whenever the spreadsheet parses, the bulk import stores, for
every matched cell, the integer value of the last ten characters of the
matched local number, and stores nothing else beyond the phones already
present; in particular the 14-digit cell 79111234567890 matches as
9111234567890 and is stored as 1234567890 - the final ten digits, which
do not begin with 9. -/
theorem C10_import_stores_last_ten_digits :
    (∀ (s : Store) (sheet : List (List Excel.Cell)) (nums : List (List Char))
        (r : Store × List PyError),
      Excel.get_phones_whitelist_from_xls sheet = .ok nums →
      Excel.add_phones_from_file s sheet = .ok r →
      (∀ m ∈ nums, Excel.imported_value m ∈ r.1.phones) ∧
      (∀ q ∈ r.1.phones, q ∈ s.phones ∨ ∃ m ∈ nums, q = Excel.imported_value m)) ∧
    Excel.parse_phone_number (.str "79111234567890".data) = some "9111234567890".data ∧
    Excel.imported_value "9111234567890".data = 1234567890 ∧
    (Excel.add_phones_from_file {} [[.str "Телефон".data, .str "79111234567890".data]]).toOption.map
      (fun r => r.1.phones) = some [(1234567890 : Int)] := by
  refine ⟨?_, by decide, by decide, by decide⟩
  intro s sheet nums r hget himp
  have hr : r = Excel.add_phones_loop s nums := by
    simp only [Excel.add_phones_from_file, hget] at himp
    exact (Except.ok.inj himp).symm
  subst hr
  exact ⟨fun m hm => add_phones_loop_inserted nums s m hm,
         fun q hq => add_phones_loop_src nums s q hq⟩

/-- C10 witness: the import theorem applied to a one-column sheet whose
single cell matches a 13-digit local number. -/
theorem C10_import_stores_last_ten_digits_witness :
    Excel.imported_value "9111234567890".data ∈
      ({ users := [], phones := [(1234567890 : Int)], groups := [] } : Store).phones := by
  have h := C10_import_stores_last_ten_digits.1 {}
    [[.str "Телефон".data, .str "79111234567890".data]]
    ["9111234567890".data]
    ({ users := [], phones := [(1234567890 : Int)], groups := [] },
     [.typeError "argument of type PhoneWhiteList is not iterable"])
    (by decide) (by decide)
  exact h.1 "9111234567890".data (by decide)

end Rasudm
